import Mathlib

/-!
Shallow embedding of the "emotion-folding" interactive 3D scene.

The repository composes a Monument-Valley-styled broken-bridge illusion:
camera presets with cosine-eased tweens (`CameraManager`), a scene holding
two bridge segments with an alignment flag and two character placeholders
(`SceneManager`), a mechanism trigger gated on camera proximity to the
"emotional" preset (`ControlsManager.triggerBridgeMechanism`), and a UI
reflector deriving a narrative state each frame
(`UIManager.updateFromSceneState`, `App.animate`).

Positions are modelled as triples of reals, the JS `Vector3.distanceTo`
as the real square root of the coordinate-wise squared distance, and the
easing function and tween sampling exactly as written in the source.
Tweens always run to completion once started (no cancellation exists in
the source), so their observable end state is the sample at the final
frame, where elapsed time has reached the duration.
-/

/-- A 3-vector of reals, modelling `THREE.Vector3`. -/
structure Vec3 where
  x : ℝ
  y : ℝ
  z : ℝ

/-- Squared Euclidean distance, as `Vector3.distanceToSquared`. -/
def distanceToSquared (a b : Vec3) : ℝ :=
  (a.x - b.x) ^ 2 + (a.y - b.y) ^ 2 + (a.z - b.z) ^ 2

/-- Euclidean distance, as `Vector3.distanceTo` (square root of the
squared distance). -/
noncomputable def distanceTo (a b : Vec3) : ℝ :=
  Real.sqrt (distanceToSquared a b)

/-- `Vector3.lerpVectors(a, b, t)`: componentwise `a + (b - a) * t`. -/
def lerpVectors (a b : Vec3) (t : ℝ) : Vec3 :=
  ⟨a.x + (b.x - a.x) * t, a.y + (b.y - a.y) * t, a.z + (b.z - a.z) * t⟩

/-- The easing function used by every tween in the source:
`0.5 - 0.5 * Math.cos(progress * Math.PI)`. -/
noncomputable def ease (progress : ℝ) : ℝ :=
  0.5 - 0.5 * Real.cos (progress * Real.pi)

/-- `progress = Math.min(elapsed / duration, 1)` as computed in each
animation callback. -/
noncomputable def tweenProgress (elapsed duration : ℝ) : ℝ :=
  min (elapsed / duration) 1

/-- The three camera preset names accepted by `CameraManager.setPresetView`
(the source guards unknown strings with a warn-and-return which never
reaches any state change). -/
inductive PresetName
  | mother
  | child
  | emotional
deriving DecidableEq

/-- A named view configuration: `{ position, target }` from
`CameraManager.presets`. -/
structure ViewPreset where
  position : Vec3
  target : Vec3

/-- The preset table from the `CameraManager` constructor. -/
def presets : PresetName → ViewPreset
  | .mother => ⟨⟨-15, 8, 12⟩, ⟨-12, 1, 0⟩⟩
  | .child => ⟨⟨15, 6, 10⟩, ⟨12, 1, 0⟩⟩
  | .emotional => ⟨⟨0, 5, 20⟩, ⟨0, 0.5, 0⟩⟩

/-- Camera tween duration from `CameraManager.animateToPosition`:
2000 milliseconds. -/
def cameraTweenDuration : ℝ := 2000

/-- The data captured when `animateToPosition` starts: start and end
values for camera position and look-at target, plus the duration. -/
structure TweenSpec where
  startPosition : Vec3
  startTarget : Vec3
  endPosition : Vec3
  endTarget : Vec3
  duration : ℝ

/-- The observable state of `CameraManager`: camera position, current
look-at target, current preset name, the in-progress flag, and the
in-flight tween (if any). -/
structure CameraState where
  position : Vec3
  lookTarget : Vec3
  currentPreset : Option PresetName
  isAnimating : Bool
  activeTween : Option TweenSpec

/-- `CameraManager.setPresetView(presetName)`: returns unchanged while
`isAnimating`; otherwise records the preset as current, raises the
in-progress flag and starts the 2-second tween from the current camera
values to the preset's stored values. -/
def setPresetView (presetName : PresetName) (c : CameraState) : CameraState :=
  if c.isAnimating then c
  else
    { c with
      currentPreset := some presetName
      isAnimating := true
      activeTween := some
        ⟨c.position, c.lookTarget,
         (presets presetName).position, (presets presetName).target,
         cameraTweenDuration⟩ }

/-- One sample of the camera tween at a given elapsed time, exactly as in
`animateToPosition`: eased progress, then `lerpVectors` for the position
and for the look-at point. -/
noncomputable def cameraTweenSample (tw : TweenSpec) (elapsed : ℝ) : Vec3 × Vec3 :=
  let e := ease (tweenProgress elapsed tw.duration)
  (lerpVectors tw.startPosition tw.endPosition e,
   lerpVectors tw.startTarget tw.endTarget e)

/-- The camera state after the in-flight tween has run to completion: the
final animation frame samples at an elapsed time that has reached the
duration, and the in-progress flag is cleared. -/
noncomputable def completeCameraTween (c : CameraState) : CameraState :=
  match c.activeTween with
  | none => c
  | some tw =>
      { c with
        position := (cameraTweenSample tw tw.duration).1
        lookTarget := (cameraTweenSample tw tw.duration).2
        isAnimating := false
        activeTween := none }

/-- Default threshold of `CameraManager.isNearEmotionalView`: 2.0. -/
def defaultNearThreshold : ℝ := 2.0

/-- `CameraManager.isNearEmotionalView(threshold)`: the distance from the
current camera position to the emotional preset's position is strictly
below the threshold. -/
def isNearEmotionalView (cameraPosition : Vec3) (threshold : ℝ) : Prop :=
  distanceTo cameraPosition (presets PresetName.emotional).position < threshold

/-- `isNearEmotionalView()` called with the threshold argument omitted,
which the source defaults to 2.0. -/
def isNearEmotionalViewDefault (cameraPosition : Vec3) : Prop :=
  isNearEmotionalView cameraPosition defaultNearThreshold

/-- The bridge record created by `SceneManager.createBridge`: left and
right segment positions and the alignment flag. -/
structure BridgeState where
  leftPos : Vec3
  rightPos : Vec3
  isAligned : Bool

/-- The mutable scene fields the mechanism touches: the bridge record
(nullable, as in the source) and the two character placeholders
(null until a model or placeholder is installed). -/
structure SceneState where
  bridge : Option BridgeState
  mother : Option Vec3
  child : Option Vec3

/-- The bridge as initialised by `createBridge`: left segment at
(-6, 0.5, 0), right at (6, 0.5, 0), `isAligned: false`. -/
def initialBridge : BridgeState :=
  ⟨⟨-6, 0.5, 0⟩, ⟨6, 0.5, 0⟩, false⟩

/-- Scene state right after `SceneManager` construction, before any model
has been installed. -/
def initialScene : SceneState :=
  ⟨some initialBridge, none, none⟩

/-- The JS expression `this.sceneManager.bridge?.isAligned` under boolean
coercion: false when the bridge is null. -/
def alignedFlag : Option BridgeState → Bool
  | none => false
  | some b => b.isAligned

/-- `SceneManager.setBridgeAligned(aligned)`: writes the flag when the
bridge exists. -/
def setBridgeAligned (aligned : Bool) (s : SceneState) : SceneState :=
  match s.bridge with
  | none => s
  | some b => { s with bridge := some { b with isAligned := aligned } }

/-- Position given to the mother model by `SceneManager.setMother`. -/
def motherInitialPosition : Vec3 := ⟨-12, 1, 0⟩

/-- Position given to the child model by `SceneManager.setChild`. -/
def childInitialPosition : Vec3 := ⟨12, 1, 0⟩

/-- `SceneManager.setMother(mesh)`: installs the mother placeholder at its
platform position. -/
def setMother (s : SceneState) : SceneState :=
  { s with mother := some motherInitialPosition }

/-- `SceneManager.setChild(mesh)`: installs the child placeholder at its
platform position. -/
def setChild (s : SceneState) : SceneState :=
  { s with child := some childInitialPosition }

/-- Bridge segment tween duration from `animateBridgeSegment`: 1000 ms. -/
def bridgeSegmentDuration : ℝ := 1000

/-- Character tween duration from `animateCharacter`: 2000 ms. -/
def characterMoveDuration : ℝ := 2000

/-- The fixed offset applied to each bridge segment's z coordinate by
`triggerBridgeMovement`: `position.z + 0.3`. -/
def bridgeSegmentDelta : ℝ := 0.3

/-- One sample of `animateBridgeSegment` for a target that only carries a
z value (the only way the source calls it): x and y stay, z is eased
toward the target. -/
noncomputable def bridgeSegmentSample (start : Vec3) (targetZ progress : ℝ) : Vec3 :=
  ⟨start.x, start.y, start.z + (targetZ - start.z) * ease progress⟩

/-- Final state of a bridge-segment tween: the sample at the frame where
elapsed time has reached the duration. -/
noncomputable def animateBridgeSegmentFinal (start : Vec3) (targetZ : ℝ) : Vec3 :=
  bridgeSegmentSample start targetZ
    (tweenProgress bridgeSegmentDuration bridgeSegmentDuration)

/-- One sample of `animateCharacter` for a target that only carries an x
value (the only way the source calls it): y and z stay, x is eased toward
the target. -/
noncomputable def characterSample (start : Vec3) (targetX progress : ℝ) : Vec3 :=
  ⟨start.x + (targetX - start.x) * ease progress, start.y, start.z⟩

/-- Final state of a character tween: the sample at the frame where
elapsed time has reached the duration. -/
noncomputable def animateCharacterFinal (start : Vec3) (targetX : ℝ) : Vec3 :=
  characterSample start targetX
    (tweenProgress characterMoveDuration characterMoveDuration)

/-- Reunion target for the mother from `triggerReunion`: x = -2. -/
def motherTargetX : ℝ := -2

/-- Reunion target for the child from `triggerReunion`: x = 2. -/
def childTargetX : ℝ := 2

/-- `SceneManager.triggerReunion`, observed after its two character tweens
complete: a no-op unless both characters are present, otherwise the
mother moves to x = -2 and the child to x = 2. -/
noncomputable def triggerReunionFinal (s : SceneState) : SceneState :=
  match s.mother, s.child with
  | some m, some c =>
      { s with
        mother := some (animateCharacterFinal m motherTargetX)
        child := some (animateCharacterFinal c childTargetX) }
  | _, _ => s

/-- `SceneManager.triggerBridgeMovement`, observed after its tweens
complete: a no-op when the bridge is null; when the bridge's own
`isAligned` flag is set, each segment's z is tweened to `z + 0.3` and the
reunion is chained; otherwise nothing happens (the inner guard re-checks
only the stored flag). -/
noncomputable def triggerBridgeMovementFinal (s : SceneState) : SceneState :=
  match s.bridge with
  | none => s
  | some b =>
      if b.isAligned then
        triggerReunionFinal
          { s with
            bridge := some
              { b with
                leftPos :=
                  animateBridgeSegmentFinal b.leftPos (b.leftPos.z + bridgeSegmentDelta)
                rightPos :=
                  animateBridgeSegmentFinal b.rightPos (b.rightPos.z + bridgeSegmentDelta) } }
      else s

/-- Threshold the mechanism trigger passes to `isNearEmotionalView`:
the literal 3.0 in `ControlsManager.triggerBridgeMechanism`. -/
def alignmentThreshold : ℝ := 3.0

/-- The camera-proximity gate of the mechanism trigger:
`this.cameraManager.isNearEmotionalView(3.0)`. -/
def triggerProximityGate (cameraPosition : Vec3) : Prop :=
  isNearEmotionalView cameraPosition alignmentThreshold

open Classical in
/-- `ControlsManager.triggerBridgeMechanism`: when the camera-proximity
gate passes or the bridge's stored flag is set, `triggerBridgeMovement`
runs; otherwise only a console message is printed, which this embedding
models as returning the state unchanged (no exception exists on either
path). -/
noncomputable def triggerBridgeMechanism (cameraPosition : Vec3) (s : SceneState) :
    SceneState :=
  if triggerProximityGate cameraPosition ∨ alignedFlag s.bridge then
    triggerBridgeMovementFinal s
  else s

/-- The narrative states displayed by `UIManager`. -/
inductive NarrativeState
  | searching
  | aligning
  | connected
  | reunited
deriving DecidableEq

/-- The `sceneState` object built each frame in `App.animate` and consumed
by `UIManager.updateFromSceneState`. -/
structure SceneStateUI where
  bridgeAligned : Bool
  bridgeTriggered : Bool
  motherChildReunited : Bool

/-- `UIManager.updateFromSceneState`: the if-else cascade choosing the
displayed narrative state. -/
def updateFromSceneState (s : SceneStateUI) : NarrativeState :=
  if s.motherChildReunited then .reunited
  else if s.bridgeTriggered then .connected
  else if s.bridgeAligned then .aligning
  else .searching

open Classical in
/-- The per-frame check in `App.animate`:
`motherChildReunited = distance < 5` as a boolean. -/
noncomputable def distBelowFive (distance : ℝ) : Bool :=
  if distance < 5 then true else false

/-- The `sceneState` record as `App.animate` actually builds it each
frame: `bridgeAligned` from the bridge flag, `bridgeTriggered` the
literal `false`, and `motherChildReunited` from the character distance
when both characters exist. -/
noncomputable def buildSceneState (mother child : Option Vec3)
    (bridge : Option BridgeState) : SceneStateUI :=
  { bridgeAligned := alignedFlag bridge
    bridgeTriggered := false
    motherChildReunited :=
      match mother, child with
      | some m, some c => distBelowFive (distanceTo m c)
      | _, _ => false }

/-- The composition of the frame-loop distance check with the UI cascade,
viewed as a function of the character distance and the two flags. -/
noncomputable def narrativeFromFrame (distance : ℝ)
    (bridgeTriggered bridgeAligned : Bool) : NarrativeState :=
  updateFromSceneState ⟨bridgeAligned, bridgeTriggered, distBelowFive distance⟩

open Classical in
/-- Modelled from the spec: the narrative-state derivation rule exactly as
the specification words it — `reunited` if the character distance is
below 5, else `connected` if the bridge-triggered flag is set, else
`aligning` if aligned, else `searching`. Used only to compare against the
source-derived `narrativeFromFrame`. -/
noncomputable def specNarrativeState (distance : ℝ)
    (bridgeTriggered isAligned : Bool) : NarrativeState :=
  if distance < 5 then .reunited
  else if bridgeTriggered then .connected
  else if isAligned then .aligning
  else .searching

/-- The UI buttons wired in `ControlsManager.setupUIEvents` that can touch
camera or scene state (the save-memory button only exports an image). -/
inductive UIEvent
  | motherView
  | childView
  | emotionalView
  | triggerBridge

/-- Combined application state: the camera manager plus the scene
manager's mutable fields. -/
structure AppState where
  cameraState : CameraState
  sceneState : SceneState

/-- The click handlers from `ControlsManager`: the three view buttons call
`setPresetView`, the emotional-view button additionally sets the bridge
flag to true, and the mechanism button runs `triggerBridgeMechanism` at
whatever position the camera currently has (`cameraPosition`, since orbit
controls can move the camera between clicks). -/
noncomputable def handleEvent (e : UIEvent) (cameraPosition : Vec3)
    (st : AppState) : AppState :=
  match e with
  | .motherView => { st with cameraState := setPresetView .mother st.cameraState }
  | .childView => { st with cameraState := setPresetView .child st.cameraState }
  | .emotionalView =>
      { st with
        cameraState := setPresetView .emotional st.cameraState
        sceneState := setBridgeAligned true st.sceneState }
  | .triggerBridge =>
      { st with sceneState := triggerBridgeMechanism cameraPosition st.sceneState }

/-- The easing function evaluates to exactly 1 at progress 1, since
`cos π = -1`. -/
theorem ease_one : ease 1 = 1 := by
  unfold ease
  rw [one_mul, Real.cos_pi]
  norm_num

/-- At the final frame the progress is exactly 1 for any nonzero
duration. -/
theorem tweenProgress_self (d : ℝ) (hd : d ≠ 0) : tweenProgress d d = 1 := by
  unfold tweenProgress
  rw [div_self hd, min_self]

/-- Interpolating all the way lands exactly on the end vector. -/
theorem lerpVectors_one (a b : Vec3) : lerpVectors a b 1 = b := by
  cases a with
  | mk ax ay az =>
    cases b with
    | mk bx bz bw =>
      simp only [lerpVectors, Vec3.mk.injEq]
      refine ⟨by ring, by ring, by ring⟩

/-- A completed bridge-segment tween puts the segment exactly at the
target z, keeping x and y. -/
theorem animateBridgeSegmentFinal_eq (start : Vec3) (targetZ : ℝ) :
    animateBridgeSegmentFinal start targetZ = ⟨start.x, start.y, targetZ⟩ := by
  unfold animateBridgeSegmentFinal bridgeSegmentSample
  rw [tweenProgress_self bridgeSegmentDuration (by norm_num [bridgeSegmentDuration]),
    ease_one]
  simp only [Vec3.mk.injEq, true_and, and_true]
  ring

/-- A completed character tween puts the character exactly at the target
x, keeping y and z. -/
theorem animateCharacterFinal_eq (start : Vec3) (targetX : ℝ) :
    animateCharacterFinal start targetX = ⟨targetX, start.y, start.z⟩ := by
  unfold animateCharacterFinal characterSample
  rw [tweenProgress_self characterMoveDuration (by norm_num [characterMoveDuration]),
    ease_one]
  simp only [Vec3.mk.injEq, true_and, and_true]
  ring

/-- The reunion animation never touches the bridge field. -/
theorem triggerReunionFinal_bridge (s : SceneState) :
    (triggerReunionFinal s).bridge = s.bridge := by
  unfold triggerReunionFinal
  cases s.mother <;> cases s.child <;> rfl

/-- When the stored flag is set, the bridge movement offsets each segment
by the fixed delta along z and chains the reunion on the updated scene. -/
theorem triggerBridgeMovementFinal_of_aligned (s : SceneState) (b : BridgeState)
    (hb : s.bridge = some b) (hal : b.isAligned = true) :
    triggerBridgeMovementFinal s =
      triggerReunionFinal
        { s with
          bridge := some
            ⟨⟨b.leftPos.x, b.leftPos.y, b.leftPos.z + bridgeSegmentDelta⟩,
             ⟨b.rightPos.x, b.rightPos.y, b.rightPos.z + bridgeSegmentDelta⟩,
             b.isAligned⟩ } := by
  unfold triggerBridgeMovementFinal
  rw [hb]
  simp only [hal, if_true]
  rw [animateBridgeSegmentFinal_eq, animateBridgeSegmentFinal_eq]

/-- When the stored flag is set, the trigger's outer guard passes (its
right disjunct holds) and the movement runs. -/
theorem triggerBridgeMechanism_of_aligned (cam : Vec3) (s : SceneState)
    (b : BridgeState) (hb : s.bridge = some b) (hal : b.isAligned = true) :
    triggerBridgeMechanism cam s = triggerBridgeMovementFinal s := by
  unfold triggerBridgeMechanism
  rw [if_pos]
  right
  rw [hb]
  simpa [alignedFlag] using hal

/-- The trigger never changes the alignment flag, on any path. -/
theorem triggerBridgeMechanism_alignedFlag (cam : Vec3) (s : SceneState) :
    alignedFlag (triggerBridgeMechanism cam s).bridge = alignedFlag s.bridge := by
  unfold triggerBridgeMechanism
  by_cases h : triggerProximityGate cam ∨ alignedFlag s.bridge
  · rw [if_pos h]
    unfold triggerBridgeMovementFinal
    cases hb : s.bridge with
    | none => simp [hb]
    | some b =>
      by_cases hal : b.isAligned
      · simp only [hal, if_true]
        rw [triggerReunionFinal_bridge]
        simp [alignedFlag, hal]
      · simp [hal, hb]
  · rw [if_neg h]

/-- Evaluating a distance whose squared value is a perfect square. -/
theorem distanceTo_eq_of_sq (a b : Vec3) (r : ℝ) (hr : 0 ≤ r)
    (h : distanceToSquared a b = r ^ 2) : distanceTo a b = r := by
  unfold distanceTo
  rw [h, Real.sqrt_sq hr]

/-- Claim C2: calling `triggerBridgeMechanism()` while the bridge's
`isAligned` flag is false and the camera is at distance at least the
trigger's alignment threshold from the emotional preset position leaves
the whole state — and in particular the entire `BridgeState` — unchanged;
the only effect in the source is a console message, no exception. -/
theorem trigger_noop_when_far_and_unaligned (cam : Vec3) (s : SceneState)
    (b : BridgeState) (hb : s.bridge = some b) (hal : b.isAligned = false)
    (hfar : alignmentThreshold ≤ distanceTo cam (presets PresetName.emotional).position) :
    triggerBridgeMechanism cam s = s := by
  have hcond : ¬(triggerProximityGate cam ∨ alignedFlag s.bridge = true) := by
    rintro (hgate | hflag)
    · exact absurd hgate (not_lt.mpr hfar)
    · rw [hb] at hflag
      simp [alignedFlag, hal] at hflag
  unfold triggerBridgeMechanism
  rw [if_neg hcond]

/-- Witness for C2: with the freshly constructed scene and the camera at
(10, 5, 20) — distance 10 from the emotional preset — the trigger changes
nothing. -/
theorem trigger_noop_when_far_and_unaligned_witness :
    triggerBridgeMechanism ⟨10, 5, 20⟩ initialScene = initialScene :=
  trigger_noop_when_far_and_unaligned ⟨10, 5, 20⟩ initialScene initialBridge rfl rfl
    (by
      rw [distanceTo_eq_of_sq ⟨10, 5, 20⟩ (presets PresetName.emotional).position 10
        (by norm_num) (by norm_num [distanceToSquared, presets])]
      norm_num [alignmentThreshold])

/-- Claim C3: for each of the three named presets, a completed
`setPresetView` transition lands the camera position and look-at target
exactly on the preset's stored values, because the easing function is
exactly 1 at the final sample; the in-progress flag is cleared. -/
theorem setPresetView_lands_exactly (presetName : PresetName) (c : CameraState)
    (hc : c.isAnimating = false) :
    (completeCameraTween (setPresetView presetName c)).position =
      (presets presetName).position ∧
    (completeCameraTween (setPresetView presetName c)).lookTarget =
      (presets presetName).target ∧
    (completeCameraTween (setPresetView presetName c)).isAnimating = false ∧
    ease 1 = 1 := by
  unfold setPresetView
  rw [hc]
  simp only [Bool.false_eq_true, if_false]
  unfold completeCameraTween cameraTweenSample
  simp only
  rw [tweenProgress_self cameraTweenDuration (by norm_num [cameraTweenDuration]),
    ease_one, lerpVectors_one, lerpVectors_one]
  refine ⟨?_, ?_, ?_, ?_⟩ <;> trivial

/-- Witness for C3: from an idle camera at the origin, a completed
transition to the mother preset lands exactly on its stored values. -/
theorem setPresetView_lands_exactly_witness :
    (completeCameraTween (setPresetView PresetName.mother
        ⟨⟨0, 0, 0⟩, ⟨0, 0, 0⟩, none, false, none⟩)).position =
      (presets PresetName.mother).position ∧
    (completeCameraTween (setPresetView PresetName.mother
        ⟨⟨0, 0, 0⟩, ⟨0, 0, 0⟩, none, false, none⟩)).lookTarget =
      (presets PresetName.mother).target ∧
    (completeCameraTween (setPresetView PresetName.mother
        ⟨⟨0, 0, 0⟩, ⟨0, 0, 0⟩, none, false, none⟩)).isAnimating = false ∧
    ease 1 = 1 :=
  setPresetView_lands_exactly PresetName.mother
    ⟨⟨0, 0, 0⟩, ⟨0, 0, 0⟩, none, false, none⟩ rfl

/-- Claim C4: `setPresetView` called while a transition is already running
is a complete no-op — the entire camera state, including `currentPreset`,
the camera values and the in-flight tween, is returned unchanged. -/
theorem setPresetView_noop_while_animating (presetName : PresetName)
    (c : CameraState) (h : c.isAnimating = true) :
    setPresetView presetName c = c := by
  unfold setPresetView
  rw [h]
  simp

/-- Witness for C4: a call made mid-transition leaves the camera state
untouched. -/
theorem setPresetView_noop_while_animating_witness :
    setPresetView PresetName.child
        ⟨⟨1, 2, 3⟩, ⟨0, 0, 0⟩, some PresetName.mother, true, none⟩ =
      ⟨⟨1, 2, 3⟩, ⟨0, 0, 0⟩, some PresetName.mother, true, none⟩ :=
  setPresetView_noop_while_animating PresetName.child
    ⟨⟨1, 2, 3⟩, ⟨0, 0, 0⟩, some PresetName.mother, true, none⟩ rfl

/-- Counterexample to claim C1 as stated: with the camera exactly at the
emotional preset position (distance 0, well within the trigger's
threshold) but the stored `isAligned` flag still false, the claim's
antecedent holds via its first disjunct, yet the call changes nothing —
the inner guard of `triggerBridgeMovement` re-checks only the stored
flag, so neither bridge segment is offset by the delta. -/
theorem trigger_near_but_unaligned_does_not_fire :
    isNearEmotionalView ⟨0, 5, 20⟩ alignmentThreshold ∧
    triggerBridgeMechanism ⟨0, 5, 20⟩ initialScene = initialScene ∧
    initialScene.bridge = some initialBridge ∧
    initialBridge.leftPos.z = 0 ∧
    initialBridge.leftPos.z + bridgeSegmentDelta ≠ initialBridge.leftPos.z := by
  have hd : distanceTo ⟨0, 5, 20⟩ (presets PresetName.emotional).position = 0 :=
    distanceTo_eq_of_sq ⟨0, 5, 20⟩ (presets PresetName.emotional).position 0 le_rfl
      (by norm_num [distanceToSquared, presets])
  have hnear : isNearEmotionalView ⟨0, 5, 20⟩ alignmentThreshold := by
    unfold isNearEmotionalView
    rw [hd]
    norm_num [alignmentThreshold]
  refine ⟨hnear, ?_, rfl, rfl, by norm_num [bridgeSegmentDelta, initialBridge]⟩
  unfold triggerBridgeMechanism
  rw [if_pos (show triggerProximityGate ⟨0, 5, 20⟩ ∨
      alignedFlag initialScene.bridge = true from Or.inl hnear)]
  unfold triggerBridgeMovementFinal
  simp [initialScene, initialBridge]

/-- Claim C1 (amended): whenever `triggerBridgeMechanism()` is called with
the bridge's stored `isAligned` flag true (the camera-proximity disjunct
alone never suffices), the mechanism fires: once the 1-second tweens
complete, each bridge segment sits offset by the fixed +0.3 delta along
z, with x, y and the flag untouched. -/
theorem trigger_fires_when_flag_set (cam : Vec3) (s : SceneState)
    (b : BridgeState) (hb : s.bridge = some b) (hal : b.isAligned = true) :
    (triggerBridgeMechanism cam s).bridge =
      some ⟨⟨b.leftPos.x, b.leftPos.y, b.leftPos.z + bridgeSegmentDelta⟩,
            ⟨b.rightPos.x, b.rightPos.y, b.rightPos.z + bridgeSegmentDelta⟩,
            b.isAligned⟩ ∧
    bridgeSegmentDelta = 0.3 ∧ bridgeSegmentDuration = 1000 ∧ ease 1 = 1 := by
  refine ⟨?_, rfl, rfl, ease_one⟩
  rw [triggerBridgeMechanism_of_aligned cam s b hb hal,
    triggerBridgeMovementFinal_of_aligned s b hb hal,
    triggerReunionFinal_bridge]

/-- Witness for the amended C1: with the flag set, triggering from an
arbitrary far-away camera position offsets both segments. -/
theorem trigger_fires_when_flag_set_witness :
    (triggerBridgeMechanism ⟨0, 0, 0⟩
        ⟨some ⟨⟨-6, 0.5, 0⟩, ⟨6, 0.5, 0⟩, true⟩, none, none⟩).bridge =
      some ⟨⟨-6, 0.5, 0 + bridgeSegmentDelta⟩, ⟨6, 0.5, 0 + bridgeSegmentDelta⟩, true⟩ ∧
    bridgeSegmentDelta = 0.3 ∧ bridgeSegmentDuration = 1000 ∧ ease 1 = 1 :=
  trigger_fires_when_flag_set ⟨0, 0, 0⟩
    ⟨some ⟨⟨-6, 0.5, 0⟩, ⟨6, 0.5, 0⟩, true⟩, none, none⟩
    ⟨⟨-6, 0.5, 0⟩, ⟨6, 0.5, 0⟩, true⟩ rfl rfl

/-- Claim C5: when the mechanism fires (stored flag set) with the mother
and child still at their platform positions (-12, 1, 0) and (12, 1, 0),
the chained reunion tween ends with the mother at x = -2 and the child at
x = 2 over the 2000 ms duration, and the final Euclidean distance between
them is 4, below 5 units. -/
theorem trigger_reunion_brings_characters_close (cam : Vec3) (s : SceneState)
    (b : BridgeState) (hb : s.bridge = some b) (hal : b.isAligned = true)
    (hm : s.mother = some motherInitialPosition)
    (hc : s.child = some childInitialPosition) :
    (triggerBridgeMechanism cam s).mother = some ⟨-2, 1, 0⟩ ∧
    (triggerBridgeMechanism cam s).child = some ⟨2, 1, 0⟩ ∧
    distanceTo ⟨-2, 1, 0⟩ ⟨2, 1, 0⟩ < 5 ∧
    motherTargetX = -2 ∧ childTargetX = 2 ∧ characterMoveDuration = 2000 := by
  have hdist : distanceTo ⟨-2, 1, 0⟩ ⟨2, 1, 0⟩ = 4 :=
    distanceTo_eq_of_sq ⟨-2, 1, 0⟩ ⟨2, 1, 0⟩ 4 (by norm_num)
      (by norm_num [distanceToSquared])
  rw [triggerBridgeMechanism_of_aligned cam s b hb hal,
    triggerBridgeMovementFinal_of_aligned s b hb hal]
  unfold triggerReunionFinal
  simp only [hm, hc]
  rw [animateCharacterFinal_eq, animateCharacterFinal_eq]
  refine ⟨?_, ?_, by rw [hdist]; norm_num, rfl, rfl, rfl⟩
  · simp [motherInitialPosition, motherTargetX]
  · simp [childInitialPosition, childTargetX]

/-- Witness for C5: triggering the aligned bridge with both characters on
their platforms reunites them at x = -2 and x = 2. -/
theorem trigger_reunion_brings_characters_close_witness :
    (triggerBridgeMechanism ⟨0, 0, 0⟩
        ⟨some ⟨⟨-6, 0.5, 0⟩, ⟨6, 0.5, 0⟩, true⟩,
         some motherInitialPosition, some childInitialPosition⟩).mother =
      some ⟨-2, 1, 0⟩ ∧
    (triggerBridgeMechanism ⟨0, 0, 0⟩
        ⟨some ⟨⟨-6, 0.5, 0⟩, ⟨6, 0.5, 0⟩, true⟩,
         some motherInitialPosition, some childInitialPosition⟩).child =
      some ⟨2, 1, 0⟩ ∧
    distanceTo ⟨-2, 1, 0⟩ ⟨2, 1, 0⟩ < 5 ∧
    motherTargetX = -2 ∧ childTargetX = 2 ∧ characterMoveDuration = 2000 :=
  trigger_reunion_brings_characters_close ⟨0, 0, 0⟩
    ⟨some ⟨⟨-6, 0.5, 0⟩, ⟨6, 0.5, 0⟩, true⟩,
     some motherInitialPosition, some childInitialPosition⟩
    ⟨⟨-6, 0.5, 0⟩, ⟨6, 0.5, 0⟩, true⟩ rfl rfl rfl rfl

/-- Claim C6: the narrative state shown each frame is a pure function of
the character distance and the two flags, matching the spec's rule with
the distance test taking precedence; in particular distance 3 with the
alignment flag set yields `reunited`. -/
theorem narrative_state_pure_with_distance_precedence :
    (∀ (d : ℝ) (trig al : Bool),
       narrativeFromFrame d trig al = specNarrativeState d trig al) ∧
    (∀ trig : Bool, narrativeFromFrame 3 trig true = NarrativeState.reunited) := by
  have key : ∀ (d : ℝ) (trig al : Bool),
      narrativeFromFrame d trig al = specNarrativeState d trig al := by
    intro d trig al
    unfold narrativeFromFrame specNarrativeState updateFromSceneState distBelowFive
    by_cases hd : d < 5
    · simp [hd]
    · simp [hd]
  refine ⟨key, fun trig => ?_⟩
  rw [key 3 trig true]
  unfold specNarrativeState
  norm_num

/-- Claim C7: `isNearEmotionalView(threshold)` holds exactly when the
Euclidean distance from the camera position to the emotional preset's
stored position (0, 5, 20) is strictly below the threshold, and the
omitted-argument form uses the default threshold 2.0. -/
theorem isNearEmotionalView_characterisation :
    (∀ (cam : Vec3) (threshold : ℝ),
       isNearEmotionalView cam threshold ↔
         Real.sqrt ((cam.x - 0) ^ 2 + (cam.y - 5) ^ 2 + (cam.z - 20) ^ 2) <
           threshold) ∧
    (∀ cam : Vec3, isNearEmotionalViewDefault cam ↔ isNearEmotionalView cam 2) ∧
    defaultNearThreshold = 2 := by
  have hdef : defaultNearThreshold = 2 := by norm_num [defaultNearThreshold]
  refine ⟨fun cam threshold => ?_, fun cam => ?_, hdef⟩
  · unfold isNearEmotionalView distanceTo distanceToSquared presets
    exact Iff.rfl
  · unfold isNearEmotionalViewDefault
    rw [hdef]

/-- Claim C8: in the per-frame UI update, `App.animate` passes the literal
`false` as `bridgeTriggered`, so the `connected` branch of the cascade is
unreachable whatever the characters and bridge look like. -/
theorem connected_state_never_displayed (mother child : Option Vec3)
    (bridge : Option BridgeState) :
    updateFromSceneState (buildSceneState mother child bridge) ≠
      NarrativeState.connected := by
  unfold updateFromSceneState buildSceneState
  cases hre : (match mother, child with
    | some m, some c => distBelowFive (distanceTo m c)
    | _, _ => false) with
  | true => simp [hre]
  | false =>
      simp only [hre, Bool.false_eq_true, if_false]
      cases hal : alignedFlag bridge <;> simp

/-- Claim C9: the bridge's `isAligned` flag starts false, every UI event
preserves it once true (no reachable operation writes false — the only
writer, the emotional-view handler, always writes true), the
emotional-view click sets it whenever the bridge exists, and from then on
every mechanism click fires regardless of where the camera is. -/
theorem isAligned_monotone_within_session :
    alignedFlag initialScene.bridge = false ∧
    (∀ (e : UIEvent) (cam : Vec3) (st : AppState),
       alignedFlag st.sceneState.bridge = true →
       alignedFlag (handleEvent e cam st).sceneState.bridge = true) ∧
    (∀ (cam : Vec3) (st : AppState) (b : BridgeState),
       st.sceneState.bridge = some b →
       alignedFlag (handleEvent UIEvent.emotionalView cam st).sceneState.bridge =
         true) ∧
    (∀ (cam : Vec3) (st : AppState) (b : BridgeState),
       st.sceneState.bridge = some b → b.isAligned = true →
       (handleEvent UIEvent.triggerBridge cam st).sceneState.bridge =
         some ⟨⟨b.leftPos.x, b.leftPos.y, b.leftPos.z + bridgeSegmentDelta⟩,
               ⟨b.rightPos.x, b.rightPos.y, b.rightPos.z + bridgeSegmentDelta⟩,
               b.isAligned⟩) := by
  refine ⟨rfl, ?_, ?_, ?_⟩
  · intro e cam st h
    cases e with
    | motherView => exact h
    | childView => exact h
    | emotionalView =>
        show alignedFlag (setBridgeAligned true st.sceneState).bridge = true
        unfold setBridgeAligned
        cases hb : st.sceneState.bridge with
        | none => rw [hb] at h; exact absurd h (by simp [alignedFlag])
        | some b => simp [alignedFlag]
    | triggerBridge =>
        show alignedFlag (triggerBridgeMechanism cam st.sceneState).bridge = true
        rw [triggerBridgeMechanism_alignedFlag]
        exact h
  · intro cam st b hb
    show alignedFlag (setBridgeAligned true st.sceneState).bridge = true
    unfold setBridgeAligned
    rw [hb]
    simp [alignedFlag]
  · intro cam st b hb hal
    show (triggerBridgeMechanism cam st.sceneState).bridge = _
    rw [triggerBridgeMechanism_of_aligned cam st.sceneState b hb hal,
      triggerBridgeMovementFinal_of_aligned st.sceneState b hb hal,
      triggerReunionFinal_bridge]

/-- Witness for C9: in a session state whose bridge flag is already true,
the mother-view click keeps it true, a fresh emotional-view click sets it
on the initial scene, and a mechanism click fires from a camera at the
origin, far from the emotional preset. -/
theorem isAligned_monotone_within_session_witness :
    alignedFlag (handleEvent UIEvent.motherView ⟨0, 0, 0⟩
        ⟨⟨⟨0, 0, 0⟩, ⟨0, 0, 0⟩, none, false, none⟩,
         ⟨some ⟨⟨-6, 0.5, 0⟩, ⟨6, 0.5, 0⟩, true⟩, none, none⟩⟩).sceneState.bridge =
      true ∧
    alignedFlag (handleEvent UIEvent.emotionalView ⟨0, 0, 0⟩
        ⟨⟨⟨0, 0, 0⟩, ⟨0, 0, 0⟩, none, false, none⟩,
         initialScene⟩).sceneState.bridge = true ∧
    (handleEvent UIEvent.triggerBridge ⟨0, 0, 0⟩
        ⟨⟨⟨0, 0, 0⟩, ⟨0, 0, 0⟩, none, false, none⟩,
         ⟨some ⟨⟨-6, 0.5, 0⟩, ⟨6, 0.5, 0⟩, true⟩, none, none⟩⟩).sceneState.bridge =
      some ⟨⟨-6, 0.5, 0 + bridgeSegmentDelta⟩, ⟨6, 0.5, 0 + bridgeSegmentDelta⟩,
            true⟩ :=
  ⟨isAligned_monotone_within_session.2.1 UIEvent.motherView ⟨0, 0, 0⟩
      ⟨⟨⟨0, 0, 0⟩, ⟨0, 0, 0⟩, none, false, none⟩,
       ⟨some ⟨⟨-6, 0.5, 0⟩, ⟨6, 0.5, 0⟩, true⟩, none, none⟩⟩ rfl,
   isAligned_monotone_within_session.2.2.1 ⟨0, 0, 0⟩
      ⟨⟨⟨0, 0, 0⟩, ⟨0, 0, 0⟩, none, false, none⟩, initialScene⟩ initialBridge rfl,
   isAligned_monotone_within_session.2.2.2 ⟨0, 0, 0⟩
      ⟨⟨⟨0, 0, 0⟩, ⟨0, 0, 0⟩, none, false, none⟩,
       ⟨some ⟨⟨-6, 0.5, 0⟩, ⟨6, 0.5, 0⟩, true⟩, none, none⟩⟩
      ⟨⟨-6, 0.5, 0⟩, ⟨6, 0.5, 0⟩, true⟩ rfl rfl⟩

/-- Claim C10: the mechanism trigger's proximity gate uses the literal
threshold 3.0 rather than the function's 2.0 default: any camera whose
distance d from the emotional preset position satisfies 2 ≤ d < 3 passes
the trigger's gate even though the default-threshold call is false. -/
theorem trigger_gate_uses_threshold_three (cam : Vec3)
    (h2 : 2 ≤ distanceTo cam (presets PresetName.emotional).position)
    (h3 : distanceTo cam (presets PresetName.emotional).position < 3) :
    triggerProximityGate cam ∧ ¬ isNearEmotionalViewDefault cam ∧
    alignmentThreshold = 3 ∧ defaultNearThreshold = 2 := by
  have ha : alignmentThreshold = 3 := by norm_num [alignmentThreshold]
  have hd : defaultNearThreshold = 2 := by norm_num [defaultNearThreshold]
  refine ⟨?_, ?_, ha, hd⟩
  · unfold triggerProximityGate isNearEmotionalView
    rw [ha]
    exact h3
  · unfold isNearEmotionalViewDefault isNearEmotionalView
    rw [hd]
    exact not_lt.mpr h2

/-- Witness for C10: the camera at (2.5, 5, 20) is at distance exactly 2.5
from the emotional preset position — inside the trigger's gate, outside
the default one. -/
theorem trigger_gate_uses_threshold_three_witness :
    triggerProximityGate ⟨2.5, 5, 20⟩ ∧
    ¬ isNearEmotionalViewDefault ⟨2.5, 5, 20⟩ ∧
    alignmentThreshold = 3 ∧ defaultNearThreshold = 2 :=
  trigger_gate_uses_threshold_three ⟨2.5, 5, 20⟩
    (by
      rw [distanceTo_eq_of_sq ⟨2.5, 5, 20⟩ (presets PresetName.emotional).position 2.5
        (by norm_num) (by norm_num [distanceToSquared, presets])]
      norm_num)
    (by
      rw [distanceTo_eq_of_sq ⟨2.5, 5, 20⟩ (presets PresetName.emotional).position 2.5
        (by norm_num) (by norm_num [distanceToSquared, presets])]
      norm_num)
